import Mathlib

/-!
Verification development for the AppFlowy backend App-entity service
(`src/backend/src/workspace_service/app/app.rs`, TarunavBA/appflowy).

The service orchestrates validation, dynamic SQL construction, transactional
execution and result assembly for the `app_table` relation.  The orchestration
code (`create_app`, `read_app`, `update_app`, `delete_app`,
`read_apps_belong_to_workspace`, `check_app_id`) is embedded directly from the
source.  Its collaborators — the identifier/value validators, the dynamic SQL
builder, the error mapper and the view sub-service — live in sibling crates
that are not part of this repository snapshot; those are modelled from the
specification, each marked `Modelled from the spec:` in its doc comment.
-/

namespace AppService

/-- A value bound as a parameterized SQL argument.  Mirrors the argument
types actually bound by `app.rs`: strings (ids, names, descriptions),
serialized protobuf bytes (`color_style`), timestamps and booleans. -/
inductive DBValue where
  | str (s : String)
  | bytes (b : List Nat)
  | time (t : Nat)
  | boolean (b : Bool)
deriving Repr, DecidableEq

/-- The stored representation of an app: one row of `app_table`.  Columns per
the persisted layout: `id`, `workspace_id`, `name`, `description`,
`color_style` (opaque bytes), `modified_time`, `create_time`, `user_id`,
`is_trash` (default false). -/
structure AppRow where
  id : String
  workspace_id : String
  name : String
  description : String
  color_style : List Nat
  modified_time : Nat
  create_time : Nat
  user_id : String
  is_trash : Bool
deriving Repr, DecidableEq

/-- A child view row, as far as the app service observes it through the
read-only view collaborator: each view belongs to a parent app. -/
structure ViewRow where
  id : String
  belong_to_id : String
  name : String
deriving Repr, DecidableEq

/-- The storage state visible to the app service: the `app_table` rows and
the view rows read through the collaborator. -/
structure Database where
  apps : List AppRow
  views : List ViewRow
deriving Repr, DecidableEq

/-- The externally visible `App` entity (`flowy_workspace::entities::app::App`):
`id`, `workspace_id`, `name`, `desc`, `belongings` (child view summaries) and
a `version` counter. -/
structure App where
  id : String
  workspace_id : String
  name : String
  desc : String
  belongings : List ViewRow
  version : Int
deriving Repr, DecidableEq

/-- The domain error taxonomy: invalid-parameter (with the offending field
name), not-found, constraint violation, transport failure, unclassified. -/
inductive ServerError where
  | invalidParams (field : String)
  | notFound
  | constraintViolation
  | transportFailure
  | unclassified
deriving Repr, DecidableEq

/-- Low-level storage-driver failures, before the error mapper normalizes
them: zero rows where one was expected, a constraint rejection, a transport
failure, or anything else. -/
inductive SqlxError where
  | rowNotFound
  | databaseConstraint
  | connClosed
  | otherFailure
deriving Repr, DecidableEq

/-- Modelled from the spec: the Error Mapper (`map_sqlx_error`, in the
`sqlx_ext` module absent from this snapshot) classifies low-level failures
into not-found, constraint violation, transport failure and an unclassified
fallback. -/
def map_sqlx_error : SqlxError → ServerError
  | .rowNotFound => .notFound
  | .databaseConstraint => .constraintViolation
  | .connClosed => .transportFailure
  | .otherFailure => .unclassified

/-- Modelled from the spec: `invalid_params` (from `flowy_net::errors`,
absent from this snapshot) wraps a validator failure into a uniform
invalid-parameter error naming the offending field. -/
def invalid_params (field : String) : ServerError :=
  ServerError.invalidParams field

/-! ### Identifier/value validators

Modelled from the spec: the parsers (`AppName`, `AppDesc`, `AppId`,
`WorkspaceId`, `UserId` in the `flowy_workspace`/`flowy_user` crates, absent
from this snapshot) are pure functions enforcing non-emptiness, a length
bound, or an identifier shape; a failure names the offending field. -/

/-- Length bound for app names (the exact bound is owned by the validator
layer; the spec only requires that one exists). -/
def appNameMaxLen : Nat := 256

/-- Length bound for app descriptions. -/
def appDescMaxLen : Nat := 1024

/-- Modelled from the spec: `AppName::parse` — non-empty, bounded length;
failure names the field `name`. -/
def AppName.parse (s : String) : Except String String :=
  if s = "" then .error "name"
  else if appNameMaxLen < s.length then .error "name"
  else .ok s

/-- Modelled from the spec: `AppDesc::parse` — bounded length, may be empty;
failure names the field `desc`. -/
def AppDesc.parse (s : String) : Except String String :=
  if appDescMaxLen < s.length then .error "desc" else .ok s

/-- Modelled from the spec: `WorkspaceId::parse` — a non-empty identifier;
failure names the field `workspace_id`. -/
def WorkspaceId.parse (s : String) : Except String String :=
  if s = "" then .error "workspace_id" else .ok s

/-- Modelled from the spec: `UserId::parse` — a non-empty identifier;
failure names the field `user_id`. -/
def UserId.parse (s : String) : Except String String :=
  if s = "" then .error "user_id" else .ok s

/-- Modelled from the spec: `AppId::parse` — a non-empty identifier;
failure names the field `app_id`. -/
def AppId.parse (s : String) : Except String String :=
  if s = "" then .error "app_id" else .ok s

/-- Hexadecimal digit test, used by the UUID shape check. -/
def isHexDigit (c : Char) : Bool :=
  (Char.ofNat 48 ≤ c && c ≤ Char.ofNat 57) ||
  (Char.ofNat 97 ≤ c && c ≤ Char.ofNat 102) ||
  (Char.ofNat 65 ≤ c && c ≤ Char.ofNat 70)

/-- Modelled from the spec: `Uuid::parse_str` succeeds exactly on
well-formed UUID-shaped ids; here the canonical hyphenated form
8-4-4-4-12 of hexadecimal digits (the form `Uuid::new_v4().to_string()`
produces). -/
def isValidUuid (s : String) : Bool :=
  let cs := s.toList
  cs.length == 36 &&
  cs.enum.all fun p =>
    if p.1 == 8 || p.1 == 13 || p.1 == 18 || p.1 == 23
    then p.2 == Char.ofNat 45
    else isHexDigit p.2

/-! ### Dynamic SQL builder

Modelled from the spec: the builder (`sqlx_ext::SqlBuilder`, absent from
this snapshot) accepts a table name and field contributions — unconditional
(`add_arg`), optional (`add_some_arg`), boolean-guarded (`add_arg_if`) —
plus equality filters (`and_where_eq`), and produces one parameterized
statement whose bound arguments correspond 1:1 to its placeholders.
Building an insert or update with zero contributed fields is an error, as is
a missing table name. -/

/-- The four statement kinds the builder supports. -/
inductive SqlKind where
  | create
  | select
  | update
  | delete
deriving Repr, DecidableEq

/-- Builder state: target table, statement kind, projection fields (select),
contributed field/value pairs, and equality filters. -/
structure SqlBuilder where
  table : String
  kind : SqlKind
  fields : List String
  args : List (String × DBValue)
  wheres : List (String × DBValue)
deriving Repr, DecidableEq

/-- `SqlBuilder::create(table)` — start an INSERT builder. -/
def SqlBuilder.create (table : String) : SqlBuilder :=
  ⟨table, .create, [], [], []⟩

/-- `SqlBuilder::select(table)` — start a SELECT builder. -/
def SqlBuilder.select (table : String) : SqlBuilder :=
  ⟨table, .select, [], [], []⟩

/-- `SqlBuilder::update(table)` — start an UPDATE builder. -/
def SqlBuilder.update (table : String) : SqlBuilder :=
  ⟨table, .update, [], [], []⟩

/-- `SqlBuilder::delete(table)` — start a DELETE builder. -/
def SqlBuilder.delete (table : String) : SqlBuilder :=
  ⟨table, .delete, [], [], []⟩

/-- `add_field` — add a projection field to a SELECT. -/
def SqlBuilder.add_field (b : SqlBuilder) (f : String) : SqlBuilder :=
  { b with fields := b.fields ++ [f] }

/-- `add_arg` — unconditionally contribute a field/value pair. -/
def SqlBuilder.add_arg (b : SqlBuilder) (f : String) (v : DBValue) : SqlBuilder :=
  { b with args := b.args ++ [(f, v)] }

/-- `add_some_arg` — contribute the field only when the optional value is
present. -/
def SqlBuilder.add_some_arg (b : SqlBuilder) (f : String) (v : Option DBValue) : SqlBuilder :=
  match v with
  | some v => b.add_arg f v
  | none => b

/-- `add_arg_if` — contribute the field only when the guard holds. -/
def SqlBuilder.add_arg_if (b : SqlBuilder) (guard : Bool) (f : String) (v : DBValue) : SqlBuilder :=
  if guard then b.add_arg f v else b

/-- `and_where_eq` — add an equality filter predicate. -/
def SqlBuilder.and_where_eq (b : SqlBuilder) (f : String) (v : DBValue) : SqlBuilder :=
  { b with wheres := b.wheres ++ [(f, v)] }

/-- The built parameterized statement: kind, table, SET/INSERT
field-contributions in order, and WHERE filters in order.  Every value sits
in the argument lists, never in the statement text, and placeholder order is
the list order (the builder's 1:1 guarantee). -/
structure BuiltStatement where
  kind : SqlKind
  table : String
  sets : List (String × DBValue)
  wheres : List (String × DBValue)
deriving Repr, DecidableEq

/-- The field names appearing in the SET clause (or INSERT column list). -/
def BuiltStatement.setFields (s : BuiltStatement) : List String :=
  s.sets.map Prod.fst

/-- `build` — finalize the statement.  Fails on a missing table name and on
an INSERT/UPDATE with zero contributed fields. -/
def SqlBuilder.build (b : SqlBuilder) : Except ServerError BuiltStatement :=
  if b.table = "" then .error .unclassified
  else if (b.kind = .create ∨ b.kind = .update) ∧ b.args = [] then .error .unclassified
  else .ok ⟨b.kind, b.table, b.args, b.wheres⟩

/-! ### Statement execution semantics over the store -/

/-- Read a named column of a row, as the bound-value type the service uses
for that column. -/
def AppRow.getField (r : AppRow) (f : String) : Option DBValue :=
  if f = "id" then some (.str r.id)
  else if f = "workspace_id" then some (.str r.workspace_id)
  else if f = "name" then some (.str r.name)
  else if f = "description" then some (.str r.description)
  else if f = "color_style" then some (.bytes r.color_style)
  else if f = "modified_time" then some (.time r.modified_time)
  else if f = "create_time" then some (.time r.create_time)
  else if f = "user_id" then some (.str r.user_id)
  else if f = "is_trash" then some (.boolean r.is_trash)
  else none

/-- A row satisfies a conjunction of equality filters. -/
def AppRow.matchesWhere (r : AppRow) (ws : List (String × DBValue)) : Bool :=
  ws.all fun p => decide (r.getField p.1 = some p.2)

/-- Write one named column of a row (a SET contribution); unknown
column/type combinations leave the row unchanged. -/
def AppRow.setField (r : AppRow) (f : String) (v : DBValue) : AppRow :=
  match f, v with
  | "id", .str s => { r with id := s }
  | "workspace_id", .str s => { r with workspace_id := s }
  | "name", .str s => { r with name := s }
  | "description", .str s => { r with description := s }
  | "color_style", .bytes b => { r with color_style := b }
  | "modified_time", .time t => { r with modified_time := t }
  | "create_time", .time t => { r with create_time := t }
  | "user_id", .str s => { r with user_id := s }
  | "is_trash", .boolean b => { r with is_trash := b }
  | _, _ => r

/-- Apply a list of SET contributions to a row in order. -/
def applySets (sets : List (String × DBValue)) (r : AppRow) : AppRow :=
  sets.foldl (fun r p => r.setField p.1 p.2) r

/-- The fresh row an INSERT materializes: every contributed column written
over the column defaults (`is_trash` defaults to false). -/
def rowFromSets (sets : List (String × DBValue)) : AppRow :=
  applySets sets ⟨"", "", "", "", [], 0, 0, "", false⟩

/-- Environment of one operation call: the freshly generated uuid, the
current time, whether transaction acquisition and commit succeed, and an
optional injected statement-level driver failure (e.g. a constraint
rejection). -/
structure Env where
  uuid : String
  time : Nat
  beginOk : Bool
  commitOk : Bool
  execError : Option SqlxError
deriving Repr, DecidableEq

/-- Execute a write statement (INSERT/UPDATE/DELETE) against the
transaction-local store; the driver may fail instead. -/
def execWrite (env : Env) (stmt : BuiltStatement) (db : Database) :
    Except SqlxError Database :=
  match env.execError with
  | some e => .error e
  | none =>
    match stmt.kind with
    | .create => .ok { db with apps := db.apps ++ [rowFromSets stmt.sets] }
    | .update =>
      let apps := db.apps.map (fun r =>
        if r.matchesWhere stmt.wheres then applySets stmt.sets r else r)
      .ok { db with apps := apps }
    | .delete =>
      let apps := db.apps.filter (fun r => !(r.matchesWhere stmt.wheres))
      .ok { db with apps := apps }
    | .select => .error .otherFailure

/-- `fetch_one` — execute a filtered SELECT expecting at least one row;
zero rows is a row-not-found driver error, extra rows beyond the first are
not consumed. -/
def fetchOne (env : Env) (stmt : BuiltStatement) (db : Database) :
    Except SqlxError AppRow :=
  match env.execError with
  | some e => .error e
  | none =>
    match db.apps.filter (fun r => r.matchesWhere stmt.wheres) with
    | [] => .error .rowNotFound
    | r :: _ => .ok r

/-- `fetch_all` — execute a filtered SELECT returning every matching row in
store order. -/
def fetchAll (stmt : BuiltStatement) (db : Database) : List AppRow :=
  db.apps.filter fun r => r.matchesWhere stmt.wheres

/-- Modelled from the spec: the `AppTable → App` conversion (backend
`entities` module, absent from this snapshot) copies the shared fields,
leaves `belongings` empty to be attached separately, and emits the baseline
version. -/
def appFromTable (r : AppRow) : App :=
  ⟨r.id, r.workspace_id, r.name, r.description, [], 0⟩

/-- Modelled from the spec: the view collaborator
`read_views_belong_to_id(transaction, parent_app_id)` returns the views
whose parent is the given app id, in their stored order, within the open
transaction. -/
def read_views_belong_to_id (db : Database) (id : String) : List ViewRow :=
  db.views.filter fun v => v.belong_to_id == id

/-! ### Request parameter structs

The protobuf parameter messages, with `has_x`/`get_x` pairs rendered as
`Option` fields (`has_x` ↔ `isSome`, `get_x` ↔ `getD` of the protobuf
default).  `color_style` is carried as its serialized bytes:
`write_to_bytes` on the concrete message is total serialization. -/

/-- `CreateAppParams`: workspace id, name, description, user id and the
color style (as the bytes its serialization produces). -/
structure CreateAppParams where
  workspace_id : String
  name : String
  desc : String
  user_id : String
  color_style : List Nat
deriving Repr, DecidableEq

/-- `QueryAppParams`: the app id and the `read_belongings` flag. -/
structure QueryAppParams where
  app_id : String
  read_belongings : Bool
deriving Repr, DecidableEq

/-- `UpdateAppParams`: the app id plus five optional fields (absent means
leave unchanged). -/
structure UpdateAppParams where
  app_id : String
  name : Option String
  workspace_id : Option String
  color_style : Option (List Nat)
  desc : Option String
  is_trash : Option Bool
deriving Repr, DecidableEq

/-- Outcome of one exposed operation: the result, the committed store
afterwards, and how many transactions were acquired from the pool. -/
structure OpOutcome (α : Type) where
  result : Except ServerError α
  db : Database
  txCount : Nat
deriving Repr

/-- `check_app_id` (app.rs:232-236): `AppId::parse` then `Uuid::parse_str`,
each failure surfacing as an invalid-parameter error. -/
def check_app_id (id : String) : Except ServerError String :=
  match AppId.parse id with
  | .error f => .error (invalid_params f)
  | .ok s =>
    if isValidUuid s then .ok s else .error (ServerError.invalidParams "app_id")

/-- The validated inputs of `create_app` after its five parse steps. -/
structure ValidCreateParams where
  color_bytes : List Nat
  name : String
  workspace_id : String
  user_id : String
  desc : String
deriving Repr, DecidableEq

/-- The validation prefix of `create_app` (app.rs:32-36), in source order:
color serialization, then `name`, `workspace_id`, `user_id`, `desc`. -/
def create_app_validate (params : CreateAppParams) :
    Except ServerError ValidCreateParams :=
  let color_bytes := params.color_style
  match AppName.parse params.name with
  | .error f => .error (invalid_params f)
  | .ok name =>
  match WorkspaceId.parse params.workspace_id with
  | .error f => .error (invalid_params f)
  | .ok workspace_id =>
  match UserId.parse params.user_id with
  | .error f => .error (invalid_params f)
  | .ok user_id =>
  match AppDesc.parse params.desc with
  | .error f => .error (invalid_params f)
  | .ok desc => .ok ⟨color_bytes, name, workspace_id, user_id, desc⟩

/-- `create_app` (app.rs:28-77): validate the five inputs, begin a
transaction, synthesize a fresh uuid and one timestamp, build and execute
one INSERT, commit, and return the App assembled from the inputs
(`belongings` empty, `version` 0) without re-reading the row. -/
def create_app (env : Env) (db : Database) (params : CreateAppParams) :
    OpOutcome App :=
  match create_app_validate params with
  | .error e => ⟨.error e, db, 0⟩
  | .ok v =>
    if env.beginOk then
      match (((((((((SqlBuilder.create "app_table").add_arg
        "id" (.str env.uuid)).add_arg
        "workspace_id" (.str v.workspace_id)).add_arg
        "name" (.str v.name)).add_arg
        "description" (.str v.desc)).add_arg
        "color_style" (.bytes v.color_bytes)).add_arg
        "modified_time" (.time env.time)).add_arg
        "create_time" (.time env.time)).add_arg
        "user_id" (.str v.user_id)).build with
      | .error e => ⟨.error e, db, 1⟩
      | .ok stmt =>
        match execWrite env stmt db with
        | .error e => ⟨.error (map_sqlx_error e), db, 1⟩
        | .ok txdb =>
          if env.commitOk then
            ⟨.ok ⟨env.uuid, v.workspace_id, v.name, v.desc, [], 0⟩, txdb, 1⟩
          else ⟨.error .transportFailure, db, 1⟩
    else ⟨.error .transportFailure, db, 0⟩

/-- `read_app` (app.rs:79-114): check the app id, begin a transaction,
SELECT the row by id expecting exactly one, optionally read the belonging
views within the same transaction, commit, and return the assembled App. -/
def read_app (env : Env) (db : Database) (params : QueryAppParams) :
    OpOutcome App :=
  match check_app_id params.app_id with
  | .error e => ⟨.error e, db, 0⟩
  | .ok app_id =>
    if env.beginOk then
      match ((((SqlBuilder.select "app_table").add_field
        "*").and_where_eq "id" (.str app_id))).build with
      | .error e => ⟨.error e, db, 1⟩
      | .ok stmt =>
        match fetchOne env stmt db with
        | .error e => ⟨.error (map_sqlx_error e), db, 1⟩
        | .ok table =>
          if env.commitOk then
            ⟨.ok { appFromTable table with belongings :=
                if params.read_belongings
                then read_views_belong_to_id db table.id
                else [] }, db, 1⟩
          else ⟨.error .transportFailure, db, 1⟩
    else ⟨.error .transportFailure, db, 0⟩

/-- The validated inputs of `update_app`: the checked app id and each
optional field parsed only when present. -/
structure ValidUpdateParams where
  app_id : String
  name : Option String
  workspace_id : Option String
  color_style : Option (List Nat)
  desc : Option String
deriving Repr, DecidableEq

/-- One optional-field validation step of `update_app`: absent means
`none` (leave unchanged), present means run the field's parser and fail on
its failure.  Mirrors the per-field `match params.has_x()` blocks of
app.rs:121-154. -/
def parseOptField (p : String → Except String String) :
    Option String → Except ServerError (Option String)
  | none => .ok none
  | some s =>
    match p s with
    | .error f => .error (invalid_params f)
    | .ok t => .ok (some t)

/-- The validation prefix of `update_app` (app.rs:120-154): the app id
unconditionally, then each supplied optional field through its parser;
absent fields stay `none`. -/
def update_app_validate (params : UpdateAppParams) :
    Except ServerError ValidUpdateParams :=
  match check_app_id params.app_id with
  | .error e => .error e
  | .ok app_id =>
  match parseOptField AppName.parse params.name with
  | .error e => .error e
  | .ok name =>
  match parseOptField WorkspaceId.parse params.workspace_id with
  | .error e => .error e
  | .ok workspace_id =>
  let color_style := params.color_style
  match parseOptField AppDesc.parse params.desc with
  | .error e => .error e
  | .ok desc => .ok ⟨app_id, name, workspace_id, color_style, desc⟩

/-- The UPDATE builder of `update_app` (app.rs:161-169): each optional
field via `add_some_arg`, `modified_time` always, `is_trash` via
`add_arg_if` on its presence flag, filtered by id. -/
def update_app_builder (env : Env) (params : UpdateAppParams)
    (v : ValidUpdateParams) : SqlBuilder :=
  (((((((SqlBuilder.update "app_table").add_some_arg
    "name" (v.name.map DBValue.str)).add_some_arg
    "workspace_id" (v.workspace_id.map DBValue.str)).add_some_arg
    "color_style" (v.color_style.map DBValue.bytes)).add_some_arg
    "description" (v.desc.map DBValue.str)).add_some_arg
    "modified_time" (some (DBValue.time env.time))).add_arg_if
    params.is_trash.isSome "is_trash" (.boolean (params.is_trash.getD false))).and_where_eq
    "id" (.str v.app_id)

/-- `update_app` (app.rs:116-182): validate, begin a transaction, build one
UPDATE whose SET clause holds exactly the supplied fields plus the
timestamp, execute it without inspecting the affected-row count, commit,
and return success with no body. -/
def update_app (env : Env) (db : Database) (params : UpdateAppParams) :
    OpOutcome Unit :=
  match update_app_validate params with
  | .error e => ⟨.error e, db, 0⟩
  | .ok v =>
    if env.beginOk then
      match (update_app_builder env params v).build with
      | .error e => ⟨.error e, db, 1⟩
      | .ok stmt =>
        match execWrite env stmt db with
        | .error e => ⟨.error (map_sqlx_error e), db, 1⟩
        | .ok txdb =>
          if env.commitOk then ⟨.ok (), txdb, 1⟩
          else ⟨.error .transportFailure, db, 1⟩
    else ⟨.error .transportFailure, db, 0⟩

/-- `delete_app` (app.rs:184-206): check the app id, begin a transaction,
build and execute one DELETE filtered by id without inspecting the
affected-row count, commit, and return success with no body. -/
def delete_app (env : Env) (db : Database) (app_id : String) :
    OpOutcome Unit :=
  match check_app_id app_id with
  | .error e => ⟨.error e, db, 0⟩
  | .ok app_id =>
    if env.beginOk then
      match ((SqlBuilder.delete "app_table").and_where_eq
        "id" (.str app_id)).build with
      | .error e => ⟨.error e, db, 1⟩
      | .ok stmt =>
        match execWrite env stmt db with
        | .error e => ⟨.error (map_sqlx_error e), db, 1⟩
        | .ok txdb =>
          if env.commitOk then ⟨.ok (), txdb, 1⟩
          else ⟨.error .transportFailure, db, 1⟩
    else ⟨.error .transportFailure, db, 0⟩

/-- `read_apps_belong_to_workspace` (app.rs:209-230): runs inside a
caller-owned transaction (no begin/commit here); validates the workspace
id, builds and executes one SELECT filtered by `workspace_id`, and maps
every returned row into an App. -/
def read_apps_belong_to_workspace (db : Database) (workspace_id : String) :
    Except ServerError (List App) :=
  match WorkspaceId.parse workspace_id with
  | .error f => .error (invalid_params f)
  | .ok wid =>
    let builder := (((SqlBuilder.select "app_table").add_field
      "*").and_where_eq "workspace_id" (.str wid))
    match builder.build with
    | .error e => .error e
    | .ok stmt =>
      let tables := fetchAll stmt db
      .ok (tables.map appFromTable)

/-! ### Concrete fixtures used in witnesses and counterexamples -/

/-- A canonical well-formed uuid string. -/
def uuidA : String := "00000000-0000-4000-8000-000000000001"

/-- A second well-formed uuid string, distinct from `uuidA`. -/
def uuidB : String := "00000000-0000-4000-8000-000000000002"

/-- A fully healthy call environment generating `uuidA` at time 42. -/
def envA : Env := ⟨uuidA, 42, true, true, none⟩

/-- A second healthy environment. -/
def envB : Env := ⟨uuidB, 77, true, true, none⟩

/-- A soft-deleted (`is_trash = true`) row living in workspace `w1`. -/
def rowTrash : AppRow := ⟨uuidB, "w1", "n", "d", [], 1, 1, "u1", true⟩

/-- A live row with id `uuidA`. -/
def rowLive : AppRow := ⟨uuidA, "w1", "old", "d", [3], 1, 1, "u1", false⟩

/-! ### Helper lemmas -/

lemma isValidUuid_ne_empty {s : String} (h : isValidUuid s = true) : s ≠ "" := by
  intro he
  subst he
  simp [isValidUuid] at h

lemma check_app_id_valid {s : String} (h : isValidUuid s = true) :
    check_app_id s = .ok s := by
  have hne : s ≠ "" := isValidUuid_ne_empty h
  simp [check_app_id, AppId.parse, hne, h]

lemma check_app_id_invalid {s : String} (h : isValidUuid s = false) :
    check_app_id s = .error (ServerError.invalidParams "app_id") := by
  by_cases hne : s = ""
  · subst hne
    simp [check_app_id, AppId.parse, invalid_params]
  · simp [check_app_id, AppId.parse, hne, h]

lemma matchesWhere_id (r : AppRow) (a : String) :
    r.matchesWhere [("id", .str a)] = decide (r.id = a) := by
  by_cases h : r.id = a <;>
    simp [AppRow.matchesWhere, AppRow.getField, h]

lemma matchesWhere_workspace (r : AppRow) (a : String) :
    r.matchesWhere [("workspace_id", .str a)] = decide (r.workspace_id = a) := by
  by_cases h : r.workspace_id = a <;>
    simp [AppRow.matchesWhere, AppRow.getField, h]

lemma filter_matches_id_nil {l : List AppRow} {a : String}
    (h : ∀ r ∈ l, r.id ≠ a) :
    l.filter (fun r => r.matchesWhere [("id", .str a)]) = [] := by
  rw [List.filter_eq_nil_iff]
  intro r hr
  rw [matchesWhere_id]
  simpa using h r hr

lemma AppName_parse_ok {s t : String} (h : AppName.parse s = .ok t) : t = s := by
  unfold AppName.parse at h
  split at h
  · simp at h
  · split at h
    · simp at h
    · simpa using h.symm

lemma WorkspaceId_parse_ok {s t : String} (h : WorkspaceId.parse s = .ok t) :
    t = s := by
  unfold WorkspaceId.parse at h
  split at h
  · simp at h
  · simpa using h.symm

lemma UserId_parse_ok {s t : String} (h : UserId.parse s = .ok t) : t = s := by
  unfold UserId.parse at h
  split at h
  · simp at h
  · simpa using h.symm

lemma AppDesc_parse_ok {s t : String} (h : AppDesc.parse s = .ok t) : t = s := by
  unfold AppDesc.parse at h
  split at h
  · simp at h
  · simpa using h.symm

lemma check_app_id_ok {s t : String} (h : check_app_id s = .ok t) :
    t = s ∧ isValidUuid s = true := by
  by_cases he : s = ""
  · simp [check_app_id, AppId.parse, he, invalid_params] at h
  · by_cases hu : isValidUuid s
    · simp [check_app_id, AppId.parse, he, hu] at h
      exact ⟨h.symm, hu⟩
    · simp [check_app_id, AppId.parse, he, hu] at h

lemma create_app_validate_fields {p : CreateAppParams} {v : ValidCreateParams}
    (h : create_app_validate p = .ok v) :
    v = ⟨p.color_style, p.name, p.workspace_id, p.user_id, p.desc⟩ := by
  unfold create_app_validate at h
  split at h
  · simp at h
  case _ nm hnm =>
    split at h
    · simp at h
    case _ w hw =>
      split at h
      · simp at h
      case _ u hu =>
        split at h
        · simp at h
        case _ d hd =>
          have h1 := AppName_parse_ok hnm
          have h2 := WorkspaceId_parse_ok hw
          have h3 := UserId_parse_ok hu
          have h4 := AppDesc_parse_ok hd
          simp only [Except.ok.injEq] at h
          subst h1 h2 h3 h4
          exact h.symm

lemma parseOptField_ok_isSome {p : String → Except String String}
    {o : Option String} {r : Option String}
    (h : parseOptField p o = .ok r) : r.isSome = o.isSome := by
  cases o with
  | none =>
    simp only [parseOptField] at h
    simp at h
    simp [← h]
  | some s =>
    simp only [parseOptField] at h
    cases hp : p s with
    | error f => rw [hp] at h; simp at h
    | ok t =>
      rw [hp] at h
      simp only [Except.ok.injEq] at h
      simp [← h]

lemma update_app_validate_fields {p : UpdateAppParams} {v : ValidUpdateParams}
    (h : update_app_validate p = .ok v) :
    v.app_id = p.app_id ∧ v.name.isSome = p.name.isSome ∧
    v.workspace_id.isSome = p.workspace_id.isSome ∧
    v.color_style = p.color_style ∧ v.desc.isSome = p.desc.isSome := by
  unfold update_app_validate at h
  split at h
  · simp at h
  case _ a heq =>
    have ha : a = p.app_id := (check_app_id_ok heq).1
    split at h
    · simp at h
    case _ n hn =>
      split at h
      · simp at h
      case _ w hw =>
        split at h
        · simp at h
        case _ d hd =>
          have e1 := parseOptField_ok_isSome hn
          have e2 := parseOptField_ok_isSome hw
          have e3 := parseOptField_ok_isSome hd
          simp only [Except.ok.injEq] at h
          subst ha
          cases h
          simp_all

/-- The row `create_app`'s INSERT materializes. -/
lemma create_app_rowFromSets (uuid w n d : String) (c : List Nat) (t : Nat)
    (u : String) :
    rowFromSets [("id", .str uuid), ("workspace_id", .str w), ("name", .str n),
      ("description", .str d), ("color_style", .bytes c),
      ("modified_time", .time t), ("create_time", .time t),
      ("user_id", .str u)] = ⟨uuid, w, n, d, c, t, t, u, false⟩ := rfl

/-- The committed success path of `create_app`. -/
lemma create_app_run {env : Env} {db : Database} {p : CreateAppParams}
    {v : ValidCreateParams} (hv : create_app_validate p = .ok v)
    (hb : env.beginOk = true) (hc : env.commitOk = true)
    (he : env.execError = none) :
    create_app env db p =
      ⟨.ok ⟨env.uuid, v.workspace_id, v.name, v.desc, [], 0⟩,
       ⟨db.apps ++ [⟨env.uuid, v.workspace_id, v.name, v.desc, v.color_bytes,
          env.time, env.time, v.user_id, false⟩], db.views⟩, 1⟩ := by
  unfold create_app
  rw [hv]
  simp only [hb, if_true]
  simp [SqlBuilder.create, SqlBuilder.add_arg, SqlBuilder.build, execWrite, he,
    hc, create_app_rowFromSets]

/-- The not-found path of `read_app`: a well-formed id matching no row. -/
lemma read_app_notFound {env : Env} {db : Database} {p : QueryAppParams}
    (hu : isValidUuid p.app_id = true) (hb : env.beginOk = true)
    (he : env.execError = none) (hm : ∀ r ∈ db.apps, r.id ≠ p.app_id) :
    read_app env db p = ⟨.error .notFound, db, 1⟩ := by
  unfold read_app
  rw [check_app_id_valid hu]
  simp only [hb, if_true]
  have hf := filter_matches_id_nil hm
  simp [SqlBuilder.select, SqlBuilder.add_field, SqlBuilder.and_where_eq,
    SqlBuilder.build, fetchOne, he, hf, map_sqlx_error]

/-- The committed success path of `read_app`: the first row matching the id
is assembled into an App, with views attached only on demand. -/
lemma read_app_run {env : Env} {db : Database} {p : QueryAppParams}
    {row : AppRow} {rest : List AppRow}
    (hu : isValidUuid p.app_id = true) (hb : env.beginOk = true)
    (hc : env.commitOk = true) (he : env.execError = none)
    (hf : db.apps.filter
        (fun r => r.matchesWhere [("id", DBValue.str p.app_id)]) = row :: rest) :
    read_app env db p =
      ⟨.ok { appFromTable row with belongings :=
          if p.read_belongings then read_views_belong_to_id db row.id else [] },
       db, 1⟩ := by
  unfold read_app
  rw [check_app_id_valid hu]
  simp only [hb, if_true]
  simp [SqlBuilder.select, SqlBuilder.add_field, SqlBuilder.and_where_eq,
    SqlBuilder.build, fetchOne, he, hf, hc]

/-- The contribution an optional field makes to a statement's field list. -/
def optField (f : String) : Option DBValue → List (String × DBValue)
  | some v => [(f, v)]
  | none => []

/-- The UPDATE builder of `update_app`, fully characterized: each present
optional field contributes once, `modified_time` always, `is_trash`
exactly when present, filtered by id. -/
lemma update_app_builder_spec (env : Env) (params : UpdateAppParams)
    (v : ValidUpdateParams) :
    update_app_builder env params v =
      ⟨"app_table", .update, [],
        optField "name" (v.name.map .str) ++
        optField "workspace_id" (v.workspace_id.map .str) ++
        optField "color_style" (v.color_style.map .bytes) ++
        optField "description" (v.desc.map .str) ++
        [("modified_time", .time env.time)] ++
        (if params.is_trash.isSome
         then [("is_trash", .boolean (params.is_trash.getD false))] else []),
        [("id", .str v.app_id)]⟩ := by
  obtain ⟨a, n, w, c, d⟩ := v
  cases n <;> cases w <;> cases c <;> cases d <;> cases htr : params.is_trash <;>
    simp [update_app_builder, SqlBuilder.update, SqlBuilder.add_some_arg,
      SqlBuilder.add_arg, SqlBuilder.add_arg_if, SqlBuilder.and_where_eq,
      optField, htr]

lemma update_app_builder_args_ne_nil (env : Env) (params : UpdateAppParams)
    (v : ValidUpdateParams) :
    (update_app_builder env params v).args ≠ [] := by
  rw [update_app_builder_spec]
  simp

/-- The UPDATE of `update_app` always builds: the table is named and the
always-present timestamp keeps the contributed-field list nonempty. -/
lemma update_app_build (env : Env) (params : UpdateAppParams)
    (v : ValidUpdateParams) :
    (update_app_builder env params v).build =
      .ok ⟨.update, "app_table", (update_app_builder env params v).args,
        [("id", DBValue.str v.app_id)]⟩ := by
  have hargs := update_app_builder_args_ne_nil env params v
  rw [update_app_builder_spec] at hargs ⊢
  simp [SqlBuilder.build, hargs]

/-- The committed success path of `update_app`: every row matching the id
filter receives the built SET contributions, all other rows are untouched. -/
lemma update_app_run {env : Env} {db : Database} {p : UpdateAppParams}
    {v : ValidUpdateParams} (hv : update_app_validate p = .ok v)
    (hb : env.beginOk = true) (hc : env.commitOk = true)
    (he : env.execError = none) :
    update_app env db p =
      ⟨.ok (), ⟨db.apps.map (fun r =>
          if r.matchesWhere [("id", DBValue.str v.app_id)]
          then applySets (update_app_builder env p v).args r else r),
        db.views⟩, 1⟩ := by
  unfold update_app
  rw [hv]
  simp only [hb, if_true]
  rw [update_app_build]
  simp [execWrite, he, hc]

/-- The committed success path of `delete_app`: every row matching the id
filter is removed. -/
lemma delete_app_run {env : Env} {db : Database} {id : String}
    (hu : isValidUuid id = true) (hb : env.beginOk = true)
    (hc : env.commitOk = true) (he : env.execError = none) :
    delete_app env db id =
      ⟨.ok (), ⟨db.apps.filter
          (fun r => !(r.matchesWhere [("id", DBValue.str id)])), db.views⟩, 1⟩ := by
  unfold delete_app
  rw [check_app_id_valid hu]
  simp only [hb, if_true]
  simp [SqlBuilder.delete, SqlBuilder.and_where_eq, SqlBuilder.build,
    execWrite, he, hc]

/-- The success path of `read_apps_belong_to_workspace`: every row whose
`workspace_id` matches is returned, in store order, mapped to an App. -/
lemma read_apps_belong_to_workspace_run {db : Database} {wid : String}
    (h : wid ≠ "") :
    read_apps_belong_to_workspace db wid =
      .ok ((db.apps.filter
          (fun r => r.matchesWhere [("workspace_id", DBValue.str wid)])).map
        appFromTable) := by
  unfold read_apps_belong_to_workspace WorkspaceId.parse
  simp [h, SqlBuilder.select, SqlBuilder.add_field, SqlBuilder.and_where_eq,
    SqlBuilder.build, fetchAll]

/-! ### Further fixtures for witnesses -/

/-- Update params supplying only `name`. -/
def pOnlyName : UpdateAppParams := ⟨uuidA, some "new", none, none, none, none⟩

/-- The validated form of `pOnlyName`. -/
def vOnlyName : ValidUpdateParams := ⟨uuidA, some "new", none, none, none⟩

/-- Update params supplying no optional field at all. -/
def pNoFields : UpdateAppParams := ⟨uuidA, none, none, none, none, none⟩

/-- The validated form of `pNoFields`. -/
def vNoFields : ValidUpdateParams := ⟨uuidA, none, none, none, none⟩

/-- Valid creation params. -/
def pGood : CreateAppParams := ⟨"w1", "nm", "ds", "u1", [7]⟩

/-- The validated form of `pGood`. -/
def vGood : ValidCreateParams := ⟨[7], "nm", "w1", "u1", "ds"⟩

/-- Creation params with an empty name. -/
def pEmptyName : CreateAppParams := ⟨"w1", "", "ds", "u1", [7]⟩

/-- A store holding exactly the live row `rowLive`. -/
def dbLive : Database := ⟨[rowLive], []⟩

/-- A store holding exactly the soft-deleted row `rowTrash`. -/
def dbTrash : Database := ⟨[rowTrash], []⟩

/-! ### Claim theorems -/

/-- Claim C1, counterexample: `read_apps_belong_to_workspace` does NOT
exclude soft-deleted rows.  On a store whose only row lives in workspace
`w1` and has `is_trash = true`, the function returns that app rather than
the empty list the claim predicts. -/
theorem read_apps_includes_trashed_row :
    rowTrash.is_trash = true ∧
    read_apps_belong_to_workspace dbTrash "w1" = .ok [appFromTable rowTrash] ∧
    (Except.ok [appFromTable rowTrash] : Except ServerError (List App)) ≠
      .ok [] :=
  ⟨rfl, rfl, by simp⟩

/-- Claim C1, amended: for every workspace id, `read_apps_belong_to_workspace`
returns exactly the apps whose `workspace_id` matches — regardless of their
`is_trash` flag (no soft-delete filter) — independent of rows belonging to
other workspaces. -/
theorem read_apps_belong_to_workspace_exact (db : Database) (wid : String)
    (h : wid ≠ "") :
    read_apps_belong_to_workspace db wid =
      .ok ((db.apps.filter (fun r => decide (r.workspace_id = wid))).map
        appFromTable) := by
  rw [read_apps_belong_to_workspace_run h]
  rw [List.filter_congr (fun r _ => matchesWhere_workspace r wid)]

/-- Witness for C1's amended theorem at a concrete store. -/
theorem read_apps_belong_to_workspace_exact_witness :
    read_apps_belong_to_workspace dbTrash "w1" =
      .ok ((dbTrash.apps.filter (fun r => decide (r.workspace_id = "w1"))).map
        appFromTable) :=
  read_apps_belong_to_workspace_exact dbTrash "w1" (by decide)

/-- Claim C3: whenever an exposed operation (`create_app`, `read_app`,
`update_app`, `delete_app`) returns an error, the transaction is never
committed: the visible store is exactly the store the operation started
from. -/
theorem error_paths_never_commit :
    (∀ (env : Env) (db : Database) (p : CreateAppParams) (e : ServerError),
      (create_app env db p).result = .error e → (create_app env db p).db = db) ∧
    (∀ (env : Env) (db : Database) (p : QueryAppParams) (e : ServerError),
      (read_app env db p).result = .error e → (read_app env db p).db = db) ∧
    (∀ (env : Env) (db : Database) (p : UpdateAppParams) (e : ServerError),
      (update_app env db p).result = .error e → (update_app env db p).db = db) ∧
    (∀ (env : Env) (db : Database) (id : String) (e : ServerError),
      (delete_app env db id).result = .error e → (delete_app env db id).db = db) := by
  refine ⟨?_, ?_, ?_, ?_⟩
  · intro env db p e
    unfold create_app
    repeat' split
    all_goals intro h
    all_goals first | rfl | simp at h
  · intro env db p e
    unfold read_app
    repeat' split
    all_goals intro h
    all_goals rfl
  · intro env db p e
    unfold update_app
    repeat' split
    all_goals intro h
    all_goals first | rfl | simp at h
  · intro env db id e
    unfold delete_app
    repeat' split
    all_goals intro h
    all_goals first | rfl | simp at h

/-- Witness for C3 at concrete failing calls of each operation. -/
theorem error_paths_never_commit_witness :
    (create_app envA dbLive pEmptyName).db = dbLive ∧
    (read_app envA dbLive ⟨"bad", false⟩).db = dbLive ∧
    (update_app envA dbLive ⟨"bad", none, none, none, none, none⟩).db = dbLive ∧
    (delete_app envA dbLive "bad").db = dbLive :=
  ⟨error_paths_never_commit.1 envA dbLive pEmptyName
      (.invalidParams "name") rfl,
   error_paths_never_commit.2.1 envA dbLive ⟨"bad", false⟩
      (.invalidParams "app_id") rfl,
   error_paths_never_commit.2.2.1 envA dbLive
      ⟨"bad", none, none, none, none, none⟩ (.invalidParams "app_id") rfl,
   error_paths_never_commit.2.2.2 envA dbLive "bad"
      (.invalidParams "app_id") rfl⟩

/-- Claim C4: validation failures surface before any transaction is
acquired from the pool — the operation returns the validator's error with
zero transactions begun and the store untouched; in particular a
syntactically invalid id string fails `check_app_id` with InvalidParameter. -/
theorem validation_precedes_transaction :
    (∀ s : String, isValidUuid s = false →
      check_app_id s = .error (ServerError.invalidParams "app_id")) ∧
    (∀ (env : Env) (db : Database) (p : QueryAppParams) (e : ServerError),
      check_app_id p.app_id = .error e → read_app env db p = ⟨.error e, db, 0⟩) ∧
    (∀ (env : Env) (db : Database) (p : CreateAppParams) (e : ServerError),
      create_app_validate p = .error e → create_app env db p = ⟨.error e, db, 0⟩) ∧
    (∀ (env : Env) (db : Database) (p : UpdateAppParams) (e : ServerError),
      update_app_validate p = .error e → update_app env db p = ⟨.error e, db, 0⟩) ∧
    (∀ (env : Env) (db : Database) (id : String) (e : ServerError),
      check_app_id id = .error e → delete_app env db id = ⟨.error e, db, 0⟩) := by
  refine ⟨fun s h => check_app_id_invalid h, ?_, ?_, ?_, ?_⟩
  · intro env db p e h; simp [read_app, h]
  · intro env db p e h; simp [create_app, h]
  · intro env db p e h; simp [update_app, h]
  · intro env db id e h; simp [delete_app, h]

/-- Witness for C4 at concrete invalid inputs. -/
theorem validation_precedes_transaction_witness :
    check_app_id "bad" = .error (ServerError.invalidParams "app_id") ∧
    read_app envA dbLive ⟨"bad", false⟩ =
      ⟨.error (ServerError.invalidParams "app_id"), dbLive, 0⟩ ∧
    create_app envA dbLive pEmptyName =
      ⟨.error (ServerError.invalidParams "name"), dbLive, 0⟩ ∧
    update_app envA dbLive ⟨"bad", none, none, none, none, none⟩ =
      ⟨.error (ServerError.invalidParams "app_id"), dbLive, 0⟩ ∧
    delete_app envA dbLive "bad" =
      ⟨.error (ServerError.invalidParams "app_id"), dbLive, 0⟩ :=
  ⟨validation_precedes_transaction.1 "bad" rfl,
   validation_precedes_transaction.2.1 envA dbLive ⟨"bad", false⟩ _ rfl,
   validation_precedes_transaction.2.2.1 envA dbLive pEmptyName _ rfl,
   validation_precedes_transaction.2.2.2.1 envA dbLive
     ⟨"bad", none, none, none, none, none⟩ _ rfl,
   validation_precedes_transaction.2.2.2.2 envA dbLive "bad" _ rfl⟩

/-- Claim C5: `create_app` validates all five inputs in source order; an
empty name fails with InvalidParameter naming `name` before any write
(store unchanged, no transaction begun), and likewise for the other
validated fields. -/
theorem create_app_validates_inputs :
    (∀ (env : Env) (db : Database) (p : CreateAppParams), p.name = "" →
      create_app env db p = ⟨.error (ServerError.invalidParams "name"), db, 0⟩) ∧
    (∀ (env : Env) (db : Database) (p : CreateAppParams), p.name ≠ "" →
      p.name.length ≤ appNameMaxLen → p.workspace_id = "" →
      create_app env db p =
        ⟨.error (ServerError.invalidParams "workspace_id"), db, 0⟩) ∧
    (∀ (env : Env) (db : Database) (p : CreateAppParams), p.name ≠ "" →
      p.name.length ≤ appNameMaxLen → p.workspace_id ≠ "" → p.user_id = "" →
      create_app env db p =
        ⟨.error (ServerError.invalidParams "user_id"), db, 0⟩) ∧
    (∀ (env : Env) (db : Database) (p : CreateAppParams), p.name ≠ "" →
      p.name.length ≤ appNameMaxLen → p.workspace_id ≠ "" → p.user_id ≠ "" →
      appDescMaxLen < p.desc.length →
      create_app env db p =
        ⟨.error (ServerError.invalidParams "desc"), db, 0⟩) := by
  refine ⟨?_, ?_, ?_, ?_⟩
  · intro env db p h
    simp [create_app, create_app_validate, AppName.parse, h, invalid_params]
  · intro env db p h1 h2 h3
    simp [create_app, create_app_validate, AppName.parse, WorkspaceId.parse,
      h1, Nat.not_lt.mpr h2, h3, invalid_params]
  · intro env db p h1 h2 h3 h4
    simp [create_app, create_app_validate, AppName.parse, WorkspaceId.parse,
      UserId.parse, h1, Nat.not_lt.mpr h2, h3, h4, invalid_params]
  · intro env db p h1 h2 h3 h4 h5
    simp [create_app, create_app_validate, AppName.parse, WorkspaceId.parse,
      UserId.parse, AppDesc.parse, h1, Nat.not_lt.mpr h2, h3, h4, h5,
      invalid_params]

/-- Witness for C5 at concrete invalid creation inputs. -/
theorem create_app_validates_inputs_witness :
    create_app envA dbLive pEmptyName =
      ⟨.error (ServerError.invalidParams "name"), dbLive, 0⟩ ∧
    create_app envA dbLive ⟨"", "nm", "ds", "u1", []⟩ =
      ⟨.error (ServerError.invalidParams "workspace_id"), dbLive, 0⟩ ∧
    create_app envA dbLive ⟨"w1", "nm", "ds", "", []⟩ =
      ⟨.error (ServerError.invalidParams "user_id"), dbLive, 0⟩ :=
  ⟨create_app_validates_inputs.1 envA dbLive pEmptyName rfl,
   create_app_validates_inputs.2.1 envA dbLive ⟨"", "nm", "ds", "u1", []⟩
     (by decide) (by decide) rfl,
   create_app_validates_inputs.2.2.1 envA dbLive ⟨"w1", "nm", "ds", "", []⟩
     (by decide) (by decide) (by decide) rfl⟩

/-- Claim C6: a well-formed app id matching no stored row makes `read_app`
fail with NotFound (zero rows from the SELECT is an error, never a
default/empty App); hence `delete_app` on an id followed by `read_app` on
that id fails with NotFound. -/
theorem read_app_missing_id_notFound :
    (∀ (env : Env) (db : Database) (p : QueryAppParams),
      isValidUuid p.app_id = true → env.beginOk = true → env.execError = none →
      (∀ r ∈ db.apps, r.id ≠ p.app_id) →
      (read_app env db p).result = .error .notFound) ∧
    (∀ (env env2 : Env) (db : Database) (id : String) (rb : Bool),
      isValidUuid id = true → env.beginOk = true → env.commitOk = true →
      env.execError = none → env2.beginOk = true → env2.execError = none →
      (delete_app env db id).result = .ok () ∧
      (read_app env2 (delete_app env db id).db ⟨id, rb⟩).result =
        .error .notFound) := by
  constructor
  · intro env db p hu hb he hm
    rw [read_app_notFound hu hb he hm]
  · intro env env2 db id rb hu hb hc he hb2 he2
    rw [delete_app_run hu hb hc he]
    refine ⟨rfl, ?_⟩
    have hm : ∀ r ∈ (Database.mk (db.apps.filter
        (fun r => !(r.matchesWhere [("id", DBValue.str id)]))) db.views).apps,
        r.id ≠ (QueryAppParams.mk id rb).app_id := by
      intro r hr
      rw [List.mem_filter] at hr
      have h2 := hr.2
      simp only [matchesWhere_id, Bool.not_eq_true', decide_eq_false_iff_not] at h2
      exact h2
    show (read_app env2 ⟨db.apps.filter
        (fun r => !(r.matchesWhere [("id", DBValue.str id)])), db.views⟩
      ⟨id, rb⟩).result = .error .notFound
    rw [read_app_notFound (p := ⟨id, rb⟩) hu hb2 he2 hm]

/-- Witness for C6: reading a uuid absent from the store, and deleting then
reading the same id. -/
theorem read_app_missing_id_notFound_witness :
    (read_app envA dbTrash ⟨uuidA, false⟩).result = .error .notFound ∧
    (delete_app envA dbLive uuidA).result = .ok () ∧
    (read_app envB (delete_app envA dbLive uuidA).db ⟨uuidA, false⟩).result =
      .error .notFound :=
  ⟨read_app_missing_id_notFound.1 envA dbTrash ⟨uuidA, false⟩
      (by decide) rfl rfl (by decide),
   (read_app_missing_id_notFound.2 envA envB dbLive uuidA false
      (by decide) rfl rfl rfl rfl rfl).1,
   (read_app_missing_id_notFound.2 envA envB dbLive uuidA false
      (by decide) rfl rfl rfl rfl rfl).2⟩

/-- Claim C7: a successful `create_app` returns an App whose id is the
freshly generated uuid and whose `name`, `desc` and `workspace_id` equal the
validated inputs (which equal the raw inputs — the parsers are identity on
success), with `belongings` empty and `version` 0, and the single
synthesized timestamp is written to both `create_time` and `modified_time`
of the inserted row; the row is never re-read. -/
theorem create_app_success_contract :
    (∀ (env : Env) (db : Database) (p : CreateAppParams) (v : ValidCreateParams),
      create_app_validate p = .ok v → env.beginOk = true → env.commitOk = true →
      env.execError = none →
      create_app env db p =
        ⟨.ok ⟨env.uuid, v.workspace_id, v.name, v.desc, [], 0⟩,
         ⟨db.apps ++ [⟨env.uuid, v.workspace_id, v.name, v.desc, v.color_bytes,
            env.time, env.time, v.user_id, false⟩], db.views⟩, 1⟩) ∧
    (∀ (p : CreateAppParams) (v : ValidCreateParams),
      create_app_validate p = .ok v →
      v = ⟨p.color_style, p.name, p.workspace_id, p.user_id, p.desc⟩) :=
  ⟨fun _ _ _ _ hv hb hc he => create_app_run hv hb hc he,
   fun _ _ hv => create_app_validate_fields hv⟩

/-- Witness for C7 at a concrete successful creation. -/
theorem create_app_success_contract_witness :
    create_app envA dbLive pGood =
      ⟨.ok ⟨envA.uuid, vGood.workspace_id, vGood.name, vGood.desc, [], 0⟩,
       ⟨dbLive.apps ++ [⟨envA.uuid, vGood.workspace_id, vGood.name, vGood.desc,
          vGood.color_bytes, envA.time, envA.time, vGood.user_id, false⟩],
        dbLive.views⟩, 1⟩ ∧
    vGood = ⟨pGood.color_style, pGood.name, pGood.workspace_id, pGood.user_id,
      pGood.desc⟩ :=
  ⟨create_app_success_contract.1 envA dbLive pGood vGood rfl rfl rfl rfl,
   create_app_success_contract.2 pGood vGood rfl⟩

lemma optField_map_map_fst {α : Type} (f : String) (o : Option α)
    (g : α → DBValue) :
    (optField f (o.map g)).map Prod.fst = if o.isSome then [f] else [] := by
  cases o <;> simp [optField]

lemma applySets_name_time (r : AppRow) (n : String) (t : Nat) :
    applySets [("name", DBValue.str n), ("modified_time", DBValue.time t)] r =
      { r with name := n, modified_time := t } := rfl

lemma applySets_time (r : AppRow) (t : Nat) :
    applySets [("modified_time", DBValue.time t)] r =
      { r with modified_time := t } := rfl

/-- Claim C2: the UPDATE's SET clause contains exactly the optional fields
the caller supplied plus `modified_time`, and no others — `is_trash` only
when explicitly present; and supplying only `name` changes only `name` and
`modified_time` on the matching rows, leaving `description`, `color_style`,
`workspace_id` and `is_trash` (and every other column) unchanged. -/
theorem update_app_set_clause_exact :
    (∀ (env : Env) (params : UpdateAppParams) (v : ValidUpdateParams),
      update_app_validate params = .ok v →
      ((update_app_builder env params v).build).map BuiltStatement.setFields =
        .ok ((if params.name.isSome then ["name"] else []) ++
          (if params.workspace_id.isSome then ["workspace_id"] else []) ++
          (if params.color_style.isSome then ["color_style"] else []) ++
          (if params.desc.isSome then ["description"] else []) ++
          ["modified_time"] ++
          (if params.is_trash.isSome then ["is_trash"] else []))) ∧
    (∀ (env : Env) (db : Database) (p : UpdateAppParams) (n : String),
      p.name = some n → p.workspace_id = none → p.color_style = none →
      p.desc = none → p.is_trash = none → n ≠ "" →
      n.length ≤ appNameMaxLen → isValidUuid p.app_id = true →
      env.beginOk = true → env.commitOk = true → env.execError = none →
      update_app env db p =
        ⟨.ok (), ⟨db.apps.map (fun r =>
            if r.id = p.app_id
            then { r with name := n, modified_time := env.time } else r),
          db.views⟩, 1⟩) := by
  constructor
  · intro env params v hv
    obtain ⟨ha, h1, h2, h3, h4⟩ := update_app_validate_fields hv
    rw [update_app_build]
    rw [update_app_builder_spec]
    by_cases ht : params.is_trash.isSome <;>
      simp [Except.map, BuiltStatement.setFields, optField_map_map_fst,
        h1, h2, h3, h4, ht]
  · intro env db p n hn hw hcs hd htr hne hlen hu hb hco he
    have hv : update_app_validate p = .ok ⟨p.app_id, some n, none, none, none⟩ := by
      unfold update_app_validate
      rw [check_app_id_valid hu]
      simp [parseOptField, hn, hw, hcs, hd, AppName.parse, hne,
        Nat.not_lt.mpr hlen]
    rw [update_app_run hv hb hco he]
    have hargs : (update_app_builder env p
        ⟨p.app_id, some n, none, none, none⟩).args =
        [("name", DBValue.str n), ("modified_time", DBValue.time env.time)] := by
      rw [update_app_builder_spec]
      simp [optField, htr]
    rw [hargs]
    show (OpOutcome.mk (.ok ()) ⟨db.apps.map (fun r =>
        if r.matchesWhere [("id", DBValue.str p.app_id)]
        then applySets [("name", DBValue.str n),
          ("modified_time", DBValue.time env.time)] r
        else r), db.views⟩ 1) = _
    have hmap : db.apps.map (fun r =>
        if r.matchesWhere [("id", DBValue.str p.app_id)]
        then applySets [("name", DBValue.str n),
          ("modified_time", DBValue.time env.time)] r
        else r) =
        db.apps.map (fun r =>
          if r.id = p.app_id
          then { r with name := n, modified_time := env.time } else r) := by
      apply List.map_congr_left
      intro r _
      rw [matchesWhere_id]
      by_cases hid : r.id = p.app_id
      · rw [if_pos (by simp [hid]), if_pos hid]
        exact applySets_name_time r n env.time
      · rw [if_neg (by simp [hid]), if_neg hid]
    rw [hmap]

/-- Witness for C2: only `name` supplied, on the store holding `rowLive`. -/
theorem update_app_set_clause_exact_witness :
    ((update_app_builder envA pOnlyName vOnlyName).build).map
        BuiltStatement.setFields =
      .ok ((if pOnlyName.name.isSome then ["name"] else []) ++
        (if pOnlyName.workspace_id.isSome then ["workspace_id"] else []) ++
        (if pOnlyName.color_style.isSome then ["color_style"] else []) ++
        (if pOnlyName.desc.isSome then ["description"] else []) ++
        ["modified_time"] ++
        (if pOnlyName.is_trash.isSome then ["is_trash"] else [])) ∧
    update_app envA dbLive pOnlyName =
      ⟨.ok (), ⟨dbLive.apps.map (fun r =>
          if r.id = pOnlyName.app_id
          then { r with name := "new", modified_time := envA.time } else r),
        dbLive.views⟩, 1⟩ :=
  ⟨update_app_set_clause_exact.1 envA pOnlyName vOnlyName rfl,
   update_app_set_clause_exact.2 envA dbLive pOnlyName "new" rfl rfl rfl rfl
     rfl (by decide) (by decide) (by decide) rfl rfl rfl⟩

/-- Claim C8: `update_app` with every optional field absent is a valid call
that succeeds — the always-present timestamp keeps the builder away from
its zero-contributed-fields error — and changes only `modified_time` on the
matching rows. -/
theorem update_app_all_absent_refreshes_time :
    ∀ (env : Env) (db : Database) (p : UpdateAppParams),
      p.name = none → p.workspace_id = none → p.color_style = none →
      p.desc = none → p.is_trash = none → isValidUuid p.app_id = true →
      env.beginOk = true → env.commitOk = true → env.execError = none →
      update_app env db p =
        ⟨.ok (), ⟨db.apps.map (fun r =>
            if r.id = p.app_id
            then { r with modified_time := env.time } else r),
          db.views⟩, 1⟩ := by
  intro env db p hn hw hcs hd htr hu hb hco he
  have hv : update_app_validate p = .ok ⟨p.app_id, none, none, none, none⟩ := by
    unfold update_app_validate
    rw [check_app_id_valid hu]
    simp [parseOptField, hn, hw, hcs, hd]
  rw [update_app_run hv hb hco he]
  have hargs : (update_app_builder env p
      ⟨p.app_id, none, none, none, none⟩).args =
      [("modified_time", DBValue.time env.time)] := by
    rw [update_app_builder_spec]
    simp [optField, htr]
  rw [hargs]
  show (OpOutcome.mk (.ok ()) ⟨db.apps.map (fun r =>
      if r.matchesWhere [("id", DBValue.str p.app_id)]
      then applySets [("modified_time", DBValue.time env.time)] r
      else r), db.views⟩ 1) = _
  have hmap : db.apps.map (fun r =>
      if r.matchesWhere [("id", DBValue.str p.app_id)]
      then applySets [("modified_time", DBValue.time env.time)] r
      else r) =
      db.apps.map (fun r =>
        if r.id = p.app_id
        then { r with modified_time := env.time } else r) := by
    apply List.map_congr_left
    intro r _
    rw [matchesWhere_id]
    by_cases hid : r.id = p.app_id
    · rw [if_pos (by simp [hid]), if_pos hid]
      exact applySets_time r env.time
    · rw [if_neg (by simp [hid]), if_neg hid]
  rw [hmap]

/-- Witness for C8: the all-absent update on the store holding `rowLive`. -/
theorem update_app_all_absent_refreshes_time_witness :
    update_app envA dbLive pNoFields =
      ⟨.ok (), ⟨dbLive.apps.map (fun r =>
          if r.id = pNoFields.app_id
          then { r with modified_time := envA.time } else r),
        dbLive.views⟩, 1⟩ :=
  update_app_all_absent_refreshes_time envA dbLive pNoFields rfl rfl rfl rfl
    rfl (by decide) rfl rfl rfl

/-- Claim C9: for all valid inputs, `create_app` followed immediately by
`read_app` on the returned id with `read_belongings = false` yields an App
whose `name`, `desc` and `workspace_id` equal the inputs and whose
`belongings` is empty. -/
theorem create_then_read_roundtrip :
    ∀ (env env2 : Env) (db : Database) (p : CreateAppParams)
      (v : ValidCreateParams),
      create_app_validate p = .ok v →
      env.beginOk = true → env.commitOk = true → env.execError = none →
      env2.beginOk = true → env2.commitOk = true → env2.execError = none →
      isValidUuid env.uuid = true → (∀ r ∈ db.apps, r.id ≠ env.uuid) →
      (create_app env db p).result =
        .ok ⟨env.uuid, p.workspace_id, p.name, p.desc, [], 0⟩ ∧
      (read_app env2 (create_app env db p).db ⟨env.uuid, false⟩).result =
        .ok ⟨env.uuid, p.workspace_id, p.name, p.desc, [], 0⟩ := by
  intro env env2 db p v hv hb hc he hb2 hc2 he2 hu hm
  have hf := create_app_validate_fields hv
  subst hf
  rw [create_app_run hv hb hc he]
  refine ⟨rfl, ?_⟩
  show (read_app env2 ⟨db.apps ++
      [⟨env.uuid, p.workspace_id, p.name, p.desc, p.color_style,
        env.time, env.time, p.user_id, false⟩], db.views⟩
    ⟨env.uuid, false⟩).result = _
  have hfind : (Database.mk (db.apps ++
      [⟨env.uuid, p.workspace_id, p.name, p.desc, p.color_style,
        env.time, env.time, p.user_id, false⟩]) db.views).apps.filter
      (fun r => r.matchesWhere
        [("id", DBValue.str ((QueryAppParams.mk env.uuid false).app_id))]) =
      (⟨env.uuid, p.workspace_id, p.name, p.desc, p.color_style,
        env.time, env.time, p.user_id, false⟩ : AppRow) :: [] := by
    show (db.apps ++ [(⟨env.uuid, p.workspace_id, p.name, p.desc,
        p.color_style, env.time, env.time, p.user_id, false⟩ : AppRow)]).filter
      (fun r => r.matchesWhere [("id", DBValue.str env.uuid)]) = _
    rw [List.filter_append, filter_matches_id_nil hm]
    simp [matchesWhere_id]
  rw [read_app_run hu hb2 hc2 he2 hfind]
  rfl

/-- Witness for C9: creating in an empty store and reading back. -/
theorem create_then_read_roundtrip_witness :
    (create_app envA ⟨[], []⟩ pGood).result =
      .ok ⟨envA.uuid, pGood.workspace_id, pGood.name, pGood.desc, [], 0⟩ ∧
    (read_app envB (create_app envA ⟨[], []⟩ pGood).db
        ⟨envA.uuid, false⟩).result =
      .ok ⟨envA.uuid, pGood.workspace_id, pGood.name, pGood.desc, [], 0⟩ :=
  create_then_read_roundtrip envA envB ⟨[], []⟩ pGood vGood rfl rfl rfl rfl
    rfl rfl rfl (by decide) (by decide)

/-- Claim C10: a well-formed app id matching no stored row still lets
`delete_app` and `update_app` succeed — neither inspects the affected-row
count of its statement, so a missing id is not reported as NotFound (and
the store is left unchanged). -/
theorem missing_id_write_ops_succeed :
    (∀ (env : Env) (db : Database) (id : String),
      isValidUuid id = true → env.beginOk = true → env.commitOk = true →
      env.execError = none → (∀ r ∈ db.apps, r.id ≠ id) →
      delete_app env db id = ⟨.ok (), db, 1⟩) ∧
    (∀ (env : Env) (db : Database) (p : UpdateAppParams)
      (v : ValidUpdateParams),
      update_app_validate p = .ok v → env.beginOk = true →
      env.commitOk = true → env.execError = none →
      (∀ r ∈ db.apps, r.id ≠ v.app_id) →
      update_app env db p = ⟨.ok (), db, 1⟩) := by
  constructor
  · intro env db id hu hb hc he hm
    rw [delete_app_run hu hb hc he]
    have hfil : db.apps.filter
        (fun r => !(r.matchesWhere [("id", DBValue.str id)])) = db.apps := by
      apply List.filter_eq_self.mpr
      intro r hr
      simp only [matchesWhere_id, Bool.not_eq_true', decide_eq_false_iff_not]
      exact hm r hr
    rw [hfil]
  · intro env db p v hv hb hc he hm
    rw [update_app_run hv hb hc he]
    have hmap : db.apps.map (fun r =>
        if r.matchesWhere [("id", DBValue.str v.app_id)]
        then applySets (update_app_builder env p v).args r else r) =
        db.apps := by
      trans db.apps.map id
      · apply List.map_congr_left
        intro r hr
        rw [matchesWhere_id, if_neg (by simp [hm r hr])]
        rfl
      · exact List.map_id db.apps
    rw [hmap]

/-- Witness for C10: deleting and updating a uuid absent from the store. -/
theorem missing_id_write_ops_succeed_witness :
    delete_app envA dbTrash uuidA = ⟨.ok (), dbTrash, 1⟩ ∧
    update_app envA dbTrash pNoFields = ⟨.ok (), dbTrash, 1⟩ :=
  ⟨missing_id_write_ops_succeed.1 envA dbTrash uuidA (by decide) rfl rfl rfl
      (by decide),
   missing_id_write_ops_succeed.2 envA dbTrash pNoFields vNoFields rfl rfl
      rfl rfl (by decide)⟩

end AppService




